import Mathlib

/-
Verification of the pxp-agent request-processor core: a shallow embedding of
src/lib/src/request_processor.cc, src/lib/src/action_response.cc,
src/lib/src/modules/ping.cc and src/lib/inc/cthun-agent/action_request.hpp,
with theorems about validation, dispatch, the non-blocking task life cycle,
response wire shapes and action metadata.
-/

/-- JSON values, the model of leatherman json_container JsonContainer. -/
inductive JsonContainer where
  | null : JsonContainer
  | bool (b : Bool) : JsonContainer
  | num (n : Int) : JsonContainer
  | str (s : String) : JsonContainer
  | arr (xs : List JsonContainer) : JsonContainer
  | obj (kvs : List (String × JsonContainer)) : JsonContainer

/-- Lookup of a top-level key, the model of JsonContainer get on one key. -/
def getKey (j : JsonContainer) (k : String) : Option JsonContainer :=
  match j with
  | .obj kvs => kvs.lookup k
  | _ => none

/-- Lookup of a top-level key that must hold a string, the model of the
JsonContainer get of a std::string value (absence or a non-string raises). -/
def getString (j : JsonContainer) (k : String) : Option String :=
  match getKey j k with
  | some (.str s) => some s
  | _ => none

/-- Set a key in an association list: replace in place when present, append
otherwise, as the rapidjson-backed JsonContainer set does. -/
def setPair : List (String × JsonContainer) → String → JsonContainer →
    List (String × JsonContainer)
  | [], k, v => [(k, v)]
  | (k0, v0) :: rest, k, v =>
      if k = k0 then (k, v) :: rest else (k0, v0) :: setPair rest k v

/-- Set a top-level key of a JSON object, the model of JsonContainer set. -/
def setKey (j : JsonContainer) (k : String) (v : JsonContainer) : JsonContainer :=
  match j with
  | .obj kvs => .obj (setPair kvs k v)
  | _ => .obj [(k, v)]

/-- The top-level keys of a JSON object, in order. -/
def JsonContainer.keys : JsonContainer → List String
  | .obj kvs => kvs.map Prod.fst
  | _ => []

/-- RequestType from action_request.hpp. -/
inductive RequestType where
  | Blocking
  | NonBlocking
deriving DecidableEq

/-- Module::Type: internal modules are compiled in, external ones run as
subprocesses. -/
inductive ModuleType where
  | Internal
  | External
deriving DecidableEq

/-- ActionResponse::ResponseType from action_response.cc. -/
inductive ResponseType where
  | Blocking
  | NonBlocking
  | StatusOutput
  | RPCError
deriving DecidableEq

/-- ActionStatus, persisted as the strings running, success and failure. -/
inductive ActionStatus where
  | Running
  | Success
  | Failure
deriving DecidableEq

/-- Modelled from the spec: the stable string names of ActionStatus
(ACTION_STATUS_NAMES is declared outside the given sources); section 3 fixes
them as running, success and failure. -/
def actionStatusName : ActionStatus → String
  | .Running => "running"
  | .Success => "success"
  | .Failure => "failure"

/-- The fields of the inbound ParsedChunks message relevant to the request
processor: envelope header fields, the data chunk fields, and the debug
chunk list. -/
structure ParsedChunks where
  envelopeId : String
  sender : String
  transactionId : String
  hasData : Bool
  dataIsBinary : Bool
  moduleName : String
  actionName : String
  params : JsonContainer
  paramsTxt : String
  notifyOutcome : Bool
  debug : List JsonContainer

/-- ActionRequest attributes from action_request.hpp: an immutable view of a
validated inbound message. -/
structure ActionRequest where
  rtype : RequestType
  id : String
  sender : String
  transactionId : String
  moduleName : String
  actionName : String
  notifyOutcome : Bool
  params : JsonContainer
  paramsTxt : String
  debug : List JsonContainer

/-- Modelled from the spec: the format validation performed by the
ActionRequest constructor (action_request.cc is not among the given sources;
action_request.hpp documents the failure, and section 4.1 lists the checks:
non-empty id, sender and transaction_id, data chunk present and structured,
binary data rejected with a RequestFormatError). -/
def actionRequestFormatOk (pc : ParsedChunks) : Bool :=
  pc.hasData && !pc.dataIsBinary && !(pc.envelopeId == "")
    && !(pc.sender == "") && !(pc.transactionId == "")

/-- Construction of an ActionRequest from a RequestType and ParsedChunks;
failure stands for the thrown request format error. -/
def mkActionRequest (ty : RequestType) (pc : ParsedChunks) :
    Except String ActionRequest :=
  if actionRequestFormatOk pc then
    .ok { rtype := ty
          id := pc.envelopeId
          sender := pc.sender
          transactionId := pc.transactionId
          moduleName := pc.moduleName
          actionName := pc.actionName
          notifyOutcome := pc.notifyOutcome
          params := pc.params
          paramsTxt := pc.paramsTxt
          debug := pc.debug }
  else
    .error "invalid request format"

/-- A module as the registry sees it: its type, its declared actions, and its
input validator keyed by action name. -/
structure ModuleSpec where
  mtype : ModuleType
  actions : List String
  inputOk : String → JsonContainer → Bool

/-- Modelled from the spec: Module::hasAction (the Module base class is not
among the given sources); section 4.2 specifies membership of the declared
action set. -/
def hasAction (m : ModuleSpec) (a : String) : Bool :=
  m.actions.contains a

/-- ActionOutput: captured stdout, stderr and exit code of an execution. -/
structure ActionOutput where
  stdout : String
  stderr : String
  exitcode : Int
deriving DecidableEq

/-- Type constraints used by the action metadata schema in
getActionMetadataValidator. -/
inductive TypeConstraint where
  | string
  | boolean
  | any
deriving DecidableEq

/-- Whether a JSON value satisfies a type constraint. -/
def checkType : TypeConstraint → JsonContainer → Bool
  | .string, .str _ => true
  | .string, _ => false
  | .boolean, .bool _ => true
  | .boolean, _ => false
  | .any, _ => true

/-- The constraints registered by getActionMetadataValidator in
action_response.cc: key, type constraint, and whether the key is mandatory. -/
def actionMetadataConstraints : List (String × TypeConstraint × Bool) :=
  [("requester", .string, true),
   ("module", .string, true),
   ("action", .string, true),
   ("request_params", .string, true),
   ("transaction_id", .string, true),
   ("request_id", .string, true),
   ("notify_outcome", .boolean, true),
   ("start", .string, true),
   ("status", .string, true),
   ("end", .string, false),
   ("results", .any, false),
   ("results_are_valid", .boolean, false),
   ("execution_error", .string, false)]

/-- ActionResponse::isValidActionMetadata: the metadata must be a JSON object,
each mandatory key must be present with its declared type, and each optional
key must have its declared type when present. -/
def isValidActionMetadata (md : JsonContainer) : Bool :=
  (match md with
   | .obj _ => true
   | _ => false)
  && actionMetadataConstraints.all fun c =>
       match getKey md c.1 with
       | some v => checkType c.2.1 v
       | none => !c.2.2

/-- ActionResponse::getMetadataFromRequest: the metadata recorded when a
response begins from a request; the start timestamp is ambient and passed in. -/
def getMetadataFromRequest (r : ActionRequest) (startTime : String) :
    JsonContainer :=
  .obj [("requester", .str r.sender),
        ("module", .str r.moduleName),
        ("action", .str r.actionName),
        ("request_params",
          .str (if r.paramsTxt = "" then "none" else r.paramsTxt)),
        ("transaction_id", .str r.transactionId),
        ("request_id", .str r.id),
        ("notify_outcome", .bool r.notifyOutcome),
        ("start", .str startTime),
        ("status", .str (actionStatusName ActionStatus.Running))]

/-- ActionResponse: module type, request type, action output, and the action
metadata document. -/
structure ActionResponse where
  module_type : ModuleType
  request_type : RequestType
  output : ActionOutput
  action_metadata : JsonContainer

/-- ActionResponse::valid, validating the held metadata. -/
def ActionResponse.valid (r : ActionResponse) : Bool :=
  isValidActionMetadata r.action_metadata

/-- The ActionResponse constructor taking a module type and a request: begins
recording with metadata derived from the request and an empty output. -/
def ActionResponse.ofRequest (mt : ModuleType) (r : ActionRequest)
    (startTime : String) : ActionResponse :=
  { module_type := mt
    request_type := r.rtype
    output := { stdout := "", stderr := "", exitcode := 0 }
    action_metadata := getMetadataFromRequest r startTime }

/-- The ActionResponse constructor taking module type, request type, output
and an action metadata object: it throws when valid() is false, modelled as
an error result. -/
def ActionResponse.ofOutcome (mt : ModuleType) (rt : RequestType)
    (out : ActionOutput) (md : JsonContainer) : Except String ActionResponse :=
  let r : ActionResponse :=
    { module_type := mt, request_type := rt, output := out,
      action_metadata := md }
  if r.valid then .ok r else .error "invalid action metadata"

/-- ActionResponse::toJSON: the projection of the metadata into the wire
shape of the given response type; a missing or mistyped metadata entry makes
the underlying get throw, modelled as none. -/
def ActionResponse.toJSON (resp : ActionResponse) (rt : ResponseType) :
    Option JsonContainer :=
  match getString resp.action_metadata "transaction_id" with
  | none => none
  | some txn =>
    let base := JsonContainer.obj [("transaction_id", .str txn)]
    match rt with
    | .Blocking =>
        match getKey resp.action_metadata "results" with
        | none => none
        | some res => some (setKey base "results" res)
    | .NonBlocking =>
        match getKey resp.action_metadata "results" with
        | none => none
        | some res => some (setKey base "results" res)
    | .StatusOutput =>
        match getString resp.action_metadata "status" with
        | none => none
        | some st =>
          some (setKey (setKey (setKey (setKey base "status" (.str st))
                  "stdout" (.str resp.output.stdout))
                  "stderr" (.str resp.output.stderr))
                  "exitcode" (.num resp.output.exitcode))
    | .RPCError =>
        match getString resp.action_metadata "request_id" with
        | none => none
        | some rid =>
          match getString resp.action_metadata "execution_error" with
          | none => none
          | some desc =>
            some (setKey (setKey base "id" (.str rid))
                    "description" (.str desc))

/-- The wire-shape keys that section 6 of the specification lists for each
response type; stated from the words of the specification, for comparison
with the keys toJSON actually emits. -/
def specResponseKeys : ResponseType → List String
  | .Blocking => ["transaction_id", "results"]
  | .NonBlocking => ["transaction_id", "results"]
  | .StatusOutput => ["transaction_id", "status", "stdout", "stderr", "exitcode"]
  | .RPCError => ["id", "description"]

/-- The keys toJSON emits for each response type, read off the code: every
branch first sets transaction_id, so the RPCError shape also carries it. -/
def codeResponseKeys : ResponseType → List String
  | .Blocking => ["transaction_id", "results"]
  | .NonBlocking => ["transaction_id", "results"]
  | .StatusOutput => ["transaction_id", "status", "stdout", "stderr", "exitcode"]
  | .RPCError => ["transaction_id", "id", "description"]

/-- Ping::ping helper: retrieval of the hops array from a debug entry, the
model of the JsonContainer get of a vector at key hops (absence or a
non-array value raises data_parse_error, modelled as none). -/
def getHops (j : JsonContainer) : Option (List JsonContainer) :=
  match j with
  | .obj kvs =>
      match kvs.lookup "hops" with
      | some (.arr xs) => some xs
      | _ => none
  | _ => none

/-- Ping::ping from modules/ping.cc: with an empty debug list it raises a
request processing error saying no debug entry; otherwise it reads the hops
array of the first debug entry into request_hops, raising on a parse
failure. -/
def Ping.ping (debug : List JsonContainer) : Except String JsonContainer :=
  match debug with
  | [] => .error "no debug entry"
  | d :: _ =>
      match getHops d with
      | some hops => .ok (.obj [("request_hops", .arr hops)])
      | none => .error "debug entry is not valid JSON"

/-- ResultsStorage::initialize: the initial metadata document, written
atomically with completed set to false and the input recorded as none when
the request params text is empty. -/
def ResultsStorage.initialMetadata (moduleName actionName paramsTxt : String) :
    JsonContainer :=
  .obj [("module", .str moduleName),
        ("action", .str actionName),
        ("completed", .bool false),
        ("duration", .str "0 s"),
        ("input", .str (if paramsTxt = "" then "none" else paramsTxt))]

/-- ResultsStorage::writeMetadata: the atomic rewrite of the metadata file,
setting completed to true together with the duration, the exit code and the
execution error. -/
def ResultsStorage.writeMetadata (md : JsonContainer) (exit_code : Int)
    (exec_error duration : String) : JsonContainer :=
  setKey (setKey (setKey (setKey md "completed" (.bool true))
    "duration" (.str duration)) "exitcode" (.num exit_code))
    "exec_error" (.str exec_error)

/-- The observable steps of one run of nonBlockingActionTask, in program
order: the deferred lock and unlock of the per-transaction mutex, the action
execution, the connector sends, the metadata rewrite (which always sets
completed to true, carrying the exit code and execution error written), the
removal of the mutex-table entry, and the setting of the shared done flag. -/
inductive Event where
  | execAction
  | lock
  | unlock
  | sendNonBlocking
  | sendPXPError
  | writeMetadata (exit_code : Int) (exec_error : String)
  | removeEntry
  | setDone
deriving DecidableEq

/-- The outcome of the executeAction call inside the task: a normal return
with an exit code, or a thrown processing error with its message. -/
inductive ExecResult where
  | ok (exitcode : Int)
  | processingError (msg : String)

/-- The outcome of the sendNonBlockingResponse call: a normal return or a
thrown connection error with its message. -/
inductive SendResult where
  | ok
  | connError (msg : String)

/-- The EXIT_FAILURE constant that initializes the exit code of the task. -/
def EXIT_FAILURE : Int := 1

/-- nonBlockingActionTask from request_processor.cc as an event trace.
handleOk tells whether the deferred mutex handle was obtained at entry (the
ResultsMutex get succeeded); res is the outcome of executeAction; notify is
the notify_outcome field of the request data chunk; snd is the outcome of
the final-response send. The trace lists, in order: the try block (execute,
then on success lock the per-transaction mutex when its handle exists and
send the final response when notify_outcome is set; on a processing error
attempt a PXP error instead), then the metadata rewrite, then the
scope-exit cleanup (lock when the action did not complete, remove the
mutex-table entry and unlock, all only when the handle exists) and the
setting of the done flag. -/
def nonBlockingActionTask (handleOk : Bool) (res : ExecResult)
    (notify : Bool) (snd : SendResult) : List Event :=
  let stage :=
    match res with
    | .ok ec =>
        let lockEvents := if handleOk then [Event.lock] else []
        let sendEvents := if notify then [Event.sendNonBlocking] else []
        let execError :=
          if notify then
            match snd with
            | .ok => ""
            | .connError m => "Failed to send non blocking response: " ++ m ++ "\n"
          else ""
        (Event.execAction :: (lockEvents ++ sendEvents), true, ec, execError)
    | .processingError m =>
        ([Event.execAction, Event.sendPXPError], false, EXIT_FAILURE,
         "Failed to execute: " ++ m ++ "\n")
  match stage with
  | (tryEvents, completed, exit_code, exec_error) =>
    let cleanup :=
      (if handleOk then
        (if completed then [] else [Event.lock])
          ++ [Event.removeEntry, Event.unlock]
       else [])
        ++ [Event.setDone]
    tryEvents ++ [Event.writeMetadata exit_code exec_error] ++ cleanup

/-- Whether an event is the metadata rewrite. -/
def isWrite : Event → Bool
  | .writeMetadata _ _ => true
  | _ => false

/-- The lock state of the per-transaction mutex after a list of events. -/
def lockStateAfter (t : List Event) : Bool :=
  t.foldl
    (fun s e =>
      match e with
      | .lock => true
      | .unlock => false
      | _ => s)
    false

/-- Whether the per-transaction mutex is held when the first metadata
rewrite of the trace happens. -/
def heldAtFirstWrite (t : List Event) : Bool :=
  lockStateAfter (t.takeWhile (fun e => !isWrite e))

/-- The observable steps of processRequest and its dispatch helpers. -/
inductive PEvent where
  | sendPCPError (id sender : String)
  | sendPXPError (msg : String)
  | setResultsDir (dir : String)
  | constructStorage
  | spawnTask
  | sendProvisional
  | executeBlockingAction
  | sendBlockingResponse
deriving DecidableEq

/-- The outcome of the non-blocking dispatch in processNonBlockingRequest:
the storage and the task thread both came up, or the ResultsStorage
constructor threw, or the thread spawn threw. -/
inductive DispatchOutcome where
  | ok
  | storageError (msg : String)
  | spawnError (msg : String)

/-- RequestProcessor::validateRequestContent from request_processor.cc: the
registry lookup raises unknown module, a missing action raises unknown
action, an internal module with a non-blocking request raises the
only-blocking error, and params failing the input schema raise invalid
input; the checks run in exactly that order. -/
def validateRequestContent (reg : List (String × ModuleSpec))
    (r : ActionRequest) : Except String Unit :=
  match reg.lookup r.moduleName with
  | none => .error ("unknown module: " ++ r.moduleName)
  | some m =>
      if !(hasAction m r.actionName) then
        .error ("unknown action '" ++ r.actionName ++ "' for module '"
          ++ r.moduleName ++ "'")
      else if m.mtype = ModuleType.Internal ∧ r.rtype = RequestType.NonBlocking then
        .error ("the module '" ++ r.moduleName
          ++ "' supports only blocking PXP requests")
      else if !(m.inputOk r.actionName r.params) then
        .error ("invalid input for '" ++ r.moduleName ++ " "
          ++ r.actionName ++ "'")
      else
        .ok ()

/-- RequestProcessor::processNonBlockingRequest: sets the results directory
to spool slash transaction id, constructs the ResultsStorage and spawns the
task; on success it sends the provisional response, while a storage or
spawn failure makes it send a PXP error with the corresponding message. -/
def processNonBlockingRequest (dir : String) (d : DispatchOutcome) :
    List PEvent :=
  PEvent.setResultsDir dir ::
    match d with
    | .ok => [PEvent.constructStorage, PEvent.spawnTask, PEvent.sendProvisional]
    | .storageError m =>
        [PEvent.constructStorage,
         PEvent.sendPXPError ("failed to initialize result files: " ++ m)]
    | .spawnError m =>
        [PEvent.constructStorage,
         PEvent.sendPXPError ("failed to start action task: " ++ m)]

/-- RequestProcessor::processRequest: construct the ActionRequest (a format
error becomes a PCP error built from the raw envelope id and sender, and
nothing else happens), validate the content (a validation error becomes a
PXP error with the validation message), then dispatch by request type.
bres is the outcome of the blocking executeAction (an exception becomes a
PXP error), d the outcome of the non-blocking dispatch, spool the spool
directory path. -/
def processRequest (reg : List (String × ModuleSpec)) (ty : RequestType)
    (pc : ParsedChunks) (bres : Except String JsonContainer)
    (d : DispatchOutcome) (spool : String) : List PEvent :=
  match mkActionRequest ty pc with
  | .error _ => [PEvent.sendPCPError pc.envelopeId pc.sender]
  | .ok request =>
      match validateRequestContent reg request with
      | .error m => [PEvent.sendPXPError m]
      | .ok _ =>
          match request.rtype with
          | .Blocking =>
              match bres with
              | .ok _ => [PEvent.executeBlockingAction, PEvent.sendBlockingResponse]
              | .error m => [PEvent.executeBlockingAction, PEvent.sendPXPError m]
          | .NonBlocking =>
              processNonBlockingRequest (spool ++ "/" ++ request.transactionId) d

/-- The ping module as loadInternalModules registers it: an internal module
whose single action is ping; the input schema for the model accepts a
sender_timestamp entry that, when present, must be a string (the schema
class is not among the given sources). -/
def pingModule : ModuleSpec :=
  { mtype := ModuleType.Internal
    actions := ["ping"]
    inputOk := fun _ j =>
      match getKey j "sender_timestamp" with
      | some v => checkType TypeConstraint.string v
      | none => true }

/-- A concrete well-formed non-blocking ping request message, as in the
end-to-end scenarios of section 8. -/
def pingNonBlockingChunks : ParsedChunks :=
  { envelopeId := "req-1"
    sender := "S"
    transactionId := "t1"
    hasData := true
    dataIsBinary := false
    moduleName := "ping"
    actionName := "ping"
    params := .obj [("sender_timestamp", .str "0")]
    paramsTxt := ""
    notifyOutcome := false
    debug := [] }

/-- A concrete message whose envelope is malformed: the data chunk is
missing, so ActionRequest construction fails with a format error. -/
def malformedChunks : ParsedChunks :=
  { envelopeId := "req-2"
    sender := "S2"
    transactionId := "t2"
    hasData := false
    dataIsBinary := false
    moduleName := "ping"
    actionName := "ping"
    params := .obj []
    paramsTxt := ""
    notifyOutcome := false
    debug := [] }

/-- A concrete action metadata document holding every mandatory key with its
declared type. -/
def sampleMetadata : JsonContainer :=
  .obj [("requester", .str "S"),
        ("module", .str "ping"),
        ("action", .str "ping"),
        ("request_params", .str "none"),
        ("transaction_id", .str "t1"),
        ("request_id", .str "req-1"),
        ("notify_outcome", .bool false),
        ("start", .str "2015-06-24T12:00:00Z"),
        ("status", .str "running")]

/-- A concrete action metadata document holding every mandatory and every
optional key with its declared type. -/
def sampleFullMetadata : JsonContainer :=
  .obj [("requester", .str "S"),
        ("module", .str "reverse"),
        ("action", .str "string"),
        ("request_params", .str "none"),
        ("transaction_id", .str "t1"),
        ("request_id", .str "req-1"),
        ("notify_outcome", .bool true),
        ("start", .str "2015-06-24T12:00:00Z"),
        ("status", .str "failure"),
        ("end", .str "2015-06-24T12:00:01Z"),
        ("results", .obj []),
        ("results_are_valid", .bool false),
        ("execution_error", .str "boom")]

/-- A concrete ActionResponse over the full metadata document. -/
def sampleResponse : ActionResponse :=
  { module_type := ModuleType.External
    request_type := RequestType.NonBlocking
    output := { stdout := "out", stderr := "err", exitcode := 0 }
    action_metadata := sampleFullMetadata }

/-- A concrete ActionRequest whose params text is empty. -/
def sampleRequest : ActionRequest :=
  { rtype := RequestType.Blocking
    id := "req-1"
    sender := "S"
    transactionId := "t1"
    moduleName := "ping"
    actionName := "ping"
    notifyOutcome := false
    params := .obj []
    paramsTxt := ""
    debug := [] }

/-- C1 counterexample: on the ProcessingError path the final metadata
rewrite happens while the per-transaction mutex is NOT held; the scope-exit
cleanup acquires the mutex only after the write. The full trace of the
failing execution is listed. -/
theorem C1_write_unlocked_on_failure :
    heldAtFirstWrite (nonBlockingActionTask true (.processingError "boom") true .ok) = false
  ∧ nonBlockingActionTask true (.processingError "boom") true .ok
      = [Event.execAction, Event.sendPXPError,
         Event.writeMetadata 1 "Failed to execute: boom\n",
         Event.lock, Event.removeEntry, Event.unlock, Event.setDone] := by
  constructor <;> rfl

/-- C1 (amended): when the mutex handle was obtained, the per-transaction
mutex is held across the final writeMetadata on the success path, also when
the final-response send fails; on the ProcessingError path the final
writeMetadata runs with the mutex NOT held, the scope-exit cleanup acquiring
it only after the write and before removing the table entry. The rewrite
itself sets completed to true together with the exit code and the execution
error in one atomic write. -/
theorem C1_mutex_across_final_write (ec : Int) (notify : Bool) (snd : SendResult)
    (m moduleName actionName paramsTxt exec_error duration : String) :
    heldAtFirstWrite (nonBlockingActionTask true (.ok ec) notify snd) = true
  ∧ heldAtFirstWrite (nonBlockingActionTask true (.processingError m) notify snd) = false
  ∧ nonBlockingActionTask true (.processingError m) notify snd
      = [Event.execAction, Event.sendPXPError,
         Event.writeMetadata EXIT_FAILURE ("Failed to execute: " ++ m ++ "\n"),
         Event.lock, Event.removeEntry, Event.unlock, Event.setDone]
  ∧ getKey (ResultsStorage.writeMetadata
        (ResultsStorage.initialMetadata moduleName actionName paramsTxt)
        ec exec_error duration) "completed" = some (.bool true)
  ∧ getKey (ResultsStorage.writeMetadata
        (ResultsStorage.initialMetadata moduleName actionName paramsTxt)
        ec exec_error duration) "exitcode" = some (.num ec)
  ∧ getKey (ResultsStorage.writeMetadata
        (ResultsStorage.initialMetadata moduleName actionName paramsTxt)
        ec exec_error duration) "exec_error" = some (.str exec_error) := by
  refine ⟨?_, ?_, ?_, ?_, ?_, ?_⟩
  · cases notify <;> cases snd <;> rfl
  · cases notify <;> cases snd <;> rfl
  · cases notify <;> cases snd <;> rfl
  · rfl
  · rfl
  · rfl

/-- C3 counterexample: when the task failed to obtain the mutex handle at
entry, the scope-exit cleanup does NOT remove the mutex-table entry and does
NOT release any per-transaction mutex; it only sets the done flag. -/
theorem C3_no_cleanup_without_handle :
    Event.removeEntry ∉ nonBlockingActionTask false (.ok 0) false .ok
  ∧ Event.unlock ∉ nonBlockingActionTask false (.ok 0) false .ok
  ∧ Event.setDone ∈ nonBlockingActionTask false (.ok 0) false .ok := by
  refine ⟨?_, ?_, ?_⟩ <;> decide

/-- C3 (amended): on every termination path the task sets the shared done
flag, and it is the last step of the trace; the mutex-table entry is removed
and the per-transaction mutex released exactly when the mutex handle was
obtained at entry, and on the path where obtaining the handle failed neither
the removal nor any lock or unlock happens. -/
theorem C3_cleanup_on_exit (handleOk : Bool) (res : ExecResult) (notify : Bool)
    (snd : SendResult) :
    (nonBlockingActionTask handleOk res notify snd).getLast? = some Event.setDone
  ∧ (Event.removeEntry ∈ nonBlockingActionTask handleOk res notify snd ↔ handleOk = true)
  ∧ (Event.unlock ∈ nonBlockingActionTask handleOk res notify snd ↔ handleOk = true)
  ∧ (Event.lock ∈ nonBlockingActionTask handleOk res notify snd ↔ handleOk = true) := by
  cases handleOk <;> cases res <;> cases notify <;> cases snd <;>
    simp [nonBlockingActionTask]

/-- C4: for a non-blocking request whose action executes successfully, the
final non-blocking response is sent exactly when the notify_outcome flag of
the request data chunk is true; with the flag false no final response is
sent but the final metadata rewrite (with the exit code of the outcome and
an empty execution error) still happens, and the provisional response is
still emitted by the dispatch once storage and task came up. -/
theorem C4_notify_outcome_gate (handleOk : Bool) (ec : Int) (snd : SendResult)
    (dir : String) :
    Event.sendNonBlocking ∈ nonBlockingActionTask handleOk (.ok ec) true snd
  ∧ Event.sendNonBlocking ∉ nonBlockingActionTask handleOk (.ok ec) false snd
  ∧ Event.writeMetadata ec "" ∈ nonBlockingActionTask handleOk (.ok ec) false snd
  ∧ processNonBlockingRequest dir DispatchOutcome.ok
      = [PEvent.setResultsDir dir, PEvent.constructStorage, PEvent.spawnTask,
         PEvent.sendProvisional] := by
  refine ⟨?_, ?_, ?_, rfl⟩ <;> cases handleOk <;> cases snd <;>
    simp [nonBlockingActionTask]

/-- C5: a well-formed request that names an internal module and one of its
actions, with request type NonBlocking, makes processRequest emit exactly
the PXP error saying the module supports only blocking PXP requests; no
results directory is set and no Results Storage is constructed, because
validation rejects the request before dispatch. -/
theorem C5_internal_only_blocking (reg : List (String × ModuleSpec))
    (pc : ParsedChunks) (m : ModuleSpec) (bres : Except String JsonContainer)
    (d : DispatchOutcome) (spool : String)
    (hfmt : actionRequestFormatOk pc = true)
    (hm : reg.lookup pc.moduleName = some m)
    (hint : m.mtype = ModuleType.Internal)
    (hact : hasAction m pc.actionName = true) :
    processRequest reg RequestType.NonBlocking pc bres d spool
      = [PEvent.sendPXPError ("the module '" ++ pc.moduleName
          ++ "' supports only blocking PXP requests")]
  ∧ (∀ dir, PEvent.setResultsDir dir ∉
        processRequest reg RequestType.NonBlocking pc bres d spool)
  ∧ PEvent.constructStorage ∉
      processRequest reg RequestType.NonBlocking pc bres d spool := by
  have h : processRequest reg RequestType.NonBlocking pc bres d spool
      = [PEvent.sendPXPError ("the module '" ++ pc.moduleName
          ++ "' supports only blocking PXP requests")] := by
    simp [processRequest, mkActionRequest, hfmt, validateRequestContent, hm,
          hact, hint]
  refine ⟨h, ?_, ?_⟩ <;> simp [h]

/-- C6: for a well-formed request, a module name absent from the registry
makes processRequest emit exactly the PXP error unknown module with the
module name, and a present module lacking the named action makes it emit
exactly the PXP error unknown action with the action and module names; the
registry lookup runs first, so the unknown-module error takes priority. -/
theorem C6_unknown_module_and_action (reg : List (String × ModuleSpec))
    (ty : RequestType) (pc : ParsedChunks) (bres : Except String JsonContainer)
    (d : DispatchOutcome) (spool : String)
    (hfmt : actionRequestFormatOk pc = true) :
    (reg.lookup pc.moduleName = none →
      processRequest reg ty pc bres d spool
        = [PEvent.sendPXPError ("unknown module: " ++ pc.moduleName)])
  ∧ (∀ m, reg.lookup pc.moduleName = some m →
      hasAction m pc.actionName = false →
      processRequest reg ty pc bres d spool
        = [PEvent.sendPXPError ("unknown action '" ++ pc.actionName
            ++ "' for module '" ++ pc.moduleName ++ "'")]) := by
  constructor
  · intro hnone
    simp [processRequest, mkActionRequest, hfmt, validateRequestContent, hnone]
  · intro m hm hact
    simp [processRequest, mkActionRequest, hfmt, validateRequestContent, hm, hact]

/-- C7: when ActionRequest construction fails with a request format error,
processRequest emits exactly one PCP transport-level error built from the id
and sender fields of the raw envelope, and performs no further processing:
no PXP error, no validation, no dispatch. -/
theorem C7_pcp_error_on_format_error (reg : List (String × ModuleSpec))
    (ty : RequestType) (pc : ParsedChunks) (bres : Except String JsonContainer)
    (d : DispatchOutcome) (spool : String)
    (hfmt : actionRequestFormatOk pc = false) :
    processRequest reg ty pc bres d spool
      = [PEvent.sendPCPError pc.envelopeId pc.sender] := by
  simp [processRequest, mkActionRequest, hfmt]

/-- C5 witness: a concrete non-blocking ping request is rejected with the
only-blocking PXP error. -/
theorem C5_internal_only_blocking_witness :
    processRequest [("ping", pingModule)] RequestType.NonBlocking
        pingNonBlockingChunks (Except.ok (JsonContainer.obj []))
        DispatchOutcome.ok "/var/spool"
      = [PEvent.sendPXPError ("the module '" ++ pingNonBlockingChunks.moduleName
          ++ "' supports only blocking PXP requests")] :=
  (C5_internal_only_blocking [("ping", pingModule)] pingNonBlockingChunks
    pingModule (Except.ok (JsonContainer.obj [])) DispatchOutcome.ok
    "/var/spool" rfl rfl rfl rfl).1

/-- C6 witness: with an empty registry a concrete well-formed request gets
the unknown-module PXP error. -/
theorem C6_unknown_module_witness :
    processRequest [] RequestType.Blocking pingNonBlockingChunks
        (Except.ok (JsonContainer.obj [])) DispatchOutcome.ok "/var/spool"
      = [PEvent.sendPXPError ("unknown module: "
          ++ pingNonBlockingChunks.moduleName)] :=
  (C6_unknown_module_and_action [] RequestType.Blocking pingNonBlockingChunks
    (Except.ok (JsonContainer.obj [])) DispatchOutcome.ok "/var/spool" rfl).1 rfl

/-- C7 witness: a concrete message lacking its data chunk gets exactly one
PCP error carrying the envelope id and sender. -/
theorem C7_pcp_error_witness :
    processRequest [("ping", pingModule)] RequestType.Blocking malformedChunks
        (Except.ok (JsonContainer.obj [])) DispatchOutcome.ok "/var/spool"
      = [PEvent.sendPCPError malformedChunks.envelopeId malformedChunks.sender] :=
  C7_pcp_error_on_format_error [("ping", pingModule)] RequestType.Blocking
    malformedChunks (Except.ok (JsonContainer.obj [])) DispatchOutcome.ok
    "/var/spool" rfl

/-- C8: with a non-empty debug list whose first entry carries a hops array,
Ping::ping returns exactly the object mapping request_hops to that array;
with an empty debug list it fails with the no-debug-entry processing error,
and with an unparsable first entry it fails with the invalid-JSON processing
error. -/
theorem C8_ping_debug (d : JsonContainer) (rest hops : List JsonContainer)
    (h : getHops d = some hops) :
    Ping.ping (d :: rest)
      = Except.ok (JsonContainer.obj [("request_hops", .arr hops)])
  ∧ Ping.ping [] = Except.error "no debug entry"
  ∧ (∀ d2 rest2, getHops d2 = none →
      Ping.ping (d2 :: rest2) = Except.error "debug entry is not valid JSON") := by
  refine ⟨?_, rfl, ?_⟩
  · simp [Ping.ping, h]
  · intro d2 rest2 h2
    simp [Ping.ping, h2]

/-- C8 witness: a concrete debug entry with one hop is echoed back as
request_hops. -/
theorem C8_ping_debug_witness :
    Ping.ping [JsonContainer.obj
        [("hops", .arr [JsonContainer.obj [("server", .str "A")]])]]
      = Except.ok (JsonContainer.obj [("request_hops",
          .arr [JsonContainer.obj [("server", .str "A")]])]) :=
  (C8_ping_debug (JsonContainer.obj
      [("hops", .arr [JsonContainer.obj [("server", .str "A")]])])
    [] [JsonContainer.obj [("server", .str "A")]] rfl).1

/-- C9: every ActionResponse the outcome-taking constructor returns
successfully satisfies the action metadata schema; the constructor fails
exactly when the metadata is schema-invalid, so no response object with
invalid metadata exists. -/
theorem C9_constructed_response_valid (mt : ModuleType) (rt : RequestType)
    (out : ActionOutput) (md : JsonContainer) (r : ActionResponse)
    (h : ActionResponse.ofOutcome mt rt out md = Except.ok r) :
    r.valid = true ∧ isValidActionMetadata r.action_metadata = true := by
  simp only [ActionResponse.ofOutcome] at h
  split at h
  case isTrue hv =>
    injection h with h2
    subst h2
    exact ⟨hv, hv⟩
  case isFalse hv =>
    exact absurd h (by simp)

/-- C9 witness: a concrete metadata document with every mandatory key yields
a response whose metadata validates. -/
theorem C9_constructed_response_valid_witness :
    (ActionResponse.mk ModuleType.Internal RequestType.Blocking
        (ActionOutput.mk "" "" 0) sampleMetadata).valid = true :=
  (C9_constructed_response_valid ModuleType.Internal RequestType.Blocking
    (ActionOutput.mk "" "" 0) sampleMetadata
    (ActionResponse.mk ModuleType.Internal RequestType.Blocking
      (ActionOutput.mk "" "" 0) sampleMetadata) rfl).1

/-- C10: the metadata built from a request records the string none as
request_params when the params text of the request is empty, and the params
text itself otherwise; the response constructor taking a request inherits
exactly that metadata entry. -/
theorem C10_empty_params_recorded_as_none (r : ActionRequest) (t : String)
    (mt : ModuleType) :
    (r.paramsTxt = "" →
      getKey (getMetadataFromRequest r t) "request_params"
        = some (JsonContainer.str "none"))
  ∧ (r.paramsTxt ≠ "" →
      getKey (getMetadataFromRequest r t) "request_params"
        = some (JsonContainer.str r.paramsTxt))
  ∧ getKey (ActionResponse.ofRequest mt r t).action_metadata "request_params"
      = getKey (getMetadataFromRequest r t) "request_params" := by
  refine ⟨?_, ?_, rfl⟩ <;> intro h <;>
    simp [getMetadataFromRequest, getKey, h, List.lookup]

/-- C10 witness: a concrete request with empty params text records none. -/
theorem C10_empty_params_witness :
    getKey (getMetadataFromRequest sampleRequest "2015-06-24T12:00:00Z")
        "request_params" = some (JsonContainer.str "none") :=
  (C10_empty_params_recorded_as_none sampleRequest "2015-06-24T12:00:00Z"
    ModuleType.Internal).1 rfl

/-- C2 counterexample: toJSON for the RPCError response type emits the key
transaction_id in addition to id and description, so its key set differs
from the two-key RPCError wire shape of section 6; the other three response
types are unaffected. -/
theorem C2_rpcerror_extra_key :
    (ActionResponse.toJSON sampleResponse ResponseType.RPCError).map
        JsonContainer.keys
      = some ["transaction_id", "id", "description"]
  ∧ specResponseKeys ResponseType.RPCError = ["id", "description"]
  ∧ ["transaction_id", "id", "description"]
      ≠ specResponseKeys ResponseType.RPCError := by
  refine ⟨rfl, rfl, by decide⟩

/-- C2 (amended): whenever toJSON succeeds its object carries exactly the
keys the code emits for the response type: the section 6 shapes for
Blocking, NonBlocking and StatusOutput, and transaction_id followed by id
and description for RPCError, where the spec shape lists only id and
description. -/
theorem C2_toJSON_keys (resp : ActionResponse) (rt : ResponseType)
    (j : JsonContainer) (h : ActionResponse.toJSON resp rt = some j) :
    j.keys = codeResponseKeys rt
  ∧ (rt ≠ ResponseType.RPCError → j.keys = specResponseKeys rt) := by
  have hk : j.keys = codeResponseKeys rt := by
    cases rt
    all_goals simp only [ActionResponse.toJSON] at h
    case Blocking =>
      cases htxn : getString resp.action_metadata "transaction_id" <;>
        simp [htxn] at h
      cases hres : getKey resp.action_metadata "results" <;> simp [hres] at h
      subst h
      rfl
    case NonBlocking =>
      cases htxn : getString resp.action_metadata "transaction_id" <;>
        simp [htxn] at h
      cases hres : getKey resp.action_metadata "results" <;> simp [hres] at h
      subst h
      rfl
    case StatusOutput =>
      cases htxn : getString resp.action_metadata "transaction_id" <;>
        simp [htxn] at h
      cases hst : getString resp.action_metadata "status" <;> simp [hst] at h
      subst h
      rfl
    case RPCError =>
      cases htxn : getString resp.action_metadata "transaction_id" <;>
        simp [htxn] at h
      cases hrid : getString resp.action_metadata "request_id" <;>
        simp [hrid] at h
      cases hdesc : getString resp.action_metadata "execution_error" <;>
        simp [hdesc] at h
      subst h
      rfl
  refine ⟨hk, fun hne => ?_⟩
  cases rt
  · exact hk
  · exact hk
  · exact hk
  · exact absurd rfl hne

/-- C2 witness: the concrete RPCError projection of a full metadata document
carries the three keys the code emits. -/
theorem C2_toJSON_keys_witness :
    (JsonContainer.obj [("transaction_id", JsonContainer.str "t1"),
        ("id", JsonContainer.str "req-1"),
        ("description", JsonContainer.str "boom")]).keys
      = codeResponseKeys ResponseType.RPCError :=
  (C2_toJSON_keys sampleResponse ResponseType.RPCError
    (JsonContainer.obj [("transaction_id", JsonContainer.str "t1"),
      ("id", JsonContainer.str "req-1"),
      ("description", JsonContainer.str "boom")]) rfl).1
